import Mathlib

/-!
Verification of the SupabaseAuthWithSSR legal-search layer.

The repository is a Next.js front-end proxying to an external FastAPI
retrieval backend.  The retrieval core (hybrid reciprocal-rank fusion,
facet filtering, Q&A matching, synthesis aggregation) is specified by the
repository's contracts and design notes but its implementation lives
outside the repository; those components are modelled here from the spec.
The parts that do live in the repository - the `match_documents` SQL
function, the route handlers under `app/api/legal-search`, and the client
fetch wrappers - are embedded directly from their source.

Scores and similarities are modelled as rationals (`ℚ`): the reciprocal
rank fusion formula `1/(k + rank)` and the SQL similarity arithmetic are
exact over `ℚ`, so ordering facts proved here are exact statements about
the specified arithmetic.
-/

namespace LegalSearch

/-! ## Hybrid Fusion Ranker (spec §4.3), modelled from the spec -/

/-- Modelled from the spec: the `FusedResult` output record of `fuse`
(spec §3, §4.3; mirrored by the optional hybrid fields of `SearchResult`
in `src/types/legal-search/index.ts`).  The implementation of the fusion
ranker is not in the repository.  Rank fields are 1-based, `none` when the
chunk is absent from that retrieval path. -/
structure FusedResult where
  id : Nat
  rrf_score : ℚ
  dense_rank : Option Nat
  sparse_rank : Option Nat
deriving DecidableEq, Repr

/-- Modelled from the spec: the 1-based rank of chunk `i` in a retrieval
path's candidate list `xs`, `none` when absent (spec §3 `FusedResult`
invariant). -/
def rankOf (xs : List Nat) (i : Nat) : Option Nat :=
  if i ∈ xs then some (xs.indexOf i + 1) else none

/-- Modelled from the spec: one reciprocal-rank term, `1/(k + rank)`,
contributing `0` when the chunk is absent from that path (spec §4.3). -/
def rrfTerm (k : ℚ) : Option Nat → ℚ
  | none => 0
  | some r => 1 / (k + (r : ℚ))

/-- Modelled from the spec: the RRF score of a chunk from its dense and
sparse ranks (spec §4.3). -/
def rrfScore (k : ℚ) (d s : Option Nat) : ℚ :=
  rrfTerm k d + rrfTerm k s

/-- Modelled from the spec: the fused record of chunk `i` given the dense
and sparse candidate lists (spec §4.3). -/
def mkFused (dense sparse : List Nat) (k : ℚ) (i : Nat) : FusedResult :=
  { id := i
    rrf_score := rrfScore k (rankOf dense i) (rankOf sparse i)
    dense_rank := rankOf dense i
    sparse_rank := rankOf sparse i }

/-- A rank viewed in `WithTop Nat`: an absent rank sorts after every
present rank in the tie-break order. -/
def rankW : Option Nat → WithTop Nat
  | none => ⊤
  | some r => (r : WithTop Nat)

/-- The sort key of a fused record: descending `rrf_score` (negated), then
dense rank ascending, sparse rank ascending, chunk id ascending
(spec §4.3 tie-break). -/
def fuseKey (r : FusedResult) : Lex (ℚ × Lex (WithTop Nat × Lex (WithTop Nat × Nat))) :=
  toLex (-r.rrf_score, toLex (rankW r.dense_rank, toLex (rankW r.sparse_rank, r.id)))

/-- The total order `fuse` sorts by. -/
def fuseLe (a b : FusedResult) : Prop :=
  fuseKey a ≤ fuseKey b

instance : DecidableRel fuseLe :=
  fun a b => inferInstanceAs (Decidable (fuseKey a ≤ fuseKey b))

instance : IsTotal FusedResult fuseLe :=
  ⟨fun a b => le_total (fuseKey a) (fuseKey b)⟩

instance : IsTrans FusedResult fuseLe :=
  ⟨fun _ _ _ h1 h2 => le_trans h1 h2⟩

/-- The claim's ordering between a record and any record after it:
strictly higher score, or an equal score with the tie broken by dense rank
ascending, then sparse rank ascending, then chunk id ascending. -/
def fuseAfter (a b : FusedResult) : Prop :=
  b.rrf_score < a.rrf_score ∨
    (a.rrf_score = b.rrf_score ∧
      (rankW a.dense_rank < rankW b.dense_rank ∨
        (a.dense_rank = b.dense_rank ∧
          (rankW a.sparse_rank < rankW b.sparse_rank ∨
            (a.sparse_rank = b.sparse_rank ∧ a.id < b.id)))))

/-- Modelled from the spec: the Hybrid Fusion Ranker `fuse` (spec §4.3),
whose implementation is not in the repository.  For each chunk id
appearing in either candidate list it computes the RRF score
`1/(k + dense_rank) + 1/(k + sparse_rank)` (absent terms contribute 0) and
sorts by descending score with deterministic tie-breaks. -/
def fuse (dense sparse : List Nat) (k : ℚ) : List FusedResult :=
  List.insertionSort fuseLe ((dense ++ sparse).dedup.map (mkFused dense sparse k))

/-! ## Lexical/Facet Filter (spec §4.2) and Q&A Matcher (spec §4.4),
modelled from the spec -/

/-- Modelled from the spec: a retrieval candidate carrying the six
filterable facet fields of the `Filters` wire object (spec §3, §6;
`SearchFilters` in `src/types/legal-search/index.ts`) together with its
similarity score. -/
structure Candidate where
  id : Nat
  score : ℚ
  court_name : String
  city : String
  court_type : String
  content_type : String
  legal_category : String
  decision_id : String
deriving DecidableEq, Repr

/-- The `SearchFilters` wire object of
`src/types/legal-search/index.ts` (lines 134-141): six optional equality
constraints, ANDed when present. -/
structure SearchFilters where
  court_name : Option String
  city : Option String
  court_type : Option String
  content_type : Option String
  legal_category : Option String
  decision_id : Option String
deriving DecidableEq, Repr

/-- The empty filter set: no constraint present. -/
def SearchFilters.noFilters : SearchFilters :=
  ⟨none, none, none, none, none, none⟩

/-- Modelled from the spec: one filter field matches when absent, or when
equal (case-sensitive string equality) to the candidate's field
(spec §4.2). -/
def fieldMatches (o : Option String) (v : String) : Bool :=
  match o with
  | none => true
  | some x => x == v

/-- Modelled from the spec: a candidate is retained iff every present
filter field matches its corresponding field (spec §4.2, all ANDed). -/
def matchesFilters (f : SearchFilters) (c : Candidate) : Bool :=
  fieldMatches f.court_name c.court_name && fieldMatches f.city c.city &&
    fieldMatches f.court_type c.court_type && fieldMatches f.content_type c.content_type &&
    fieldMatches f.legal_category c.legal_category && fieldMatches f.decision_id c.decision_id

/-- Modelled from the spec: the pure Lexical/Facet Filter `applyFilters`
(spec §4.2), whose implementation is not in the repository. -/
def applyFilters (xs : List Candidate) (f : SearchFilters) : List Candidate :=
  xs.filter (matchesFilters f)

/-- Descending-score order used by the Q&A matcher. -/
def scoreGe (a b : Candidate) : Prop :=
  b.score ≤ a.score

instance : DecidableRel scoreGe :=
  fun a b => inferInstanceAs (Decidable (b.score ≤ a.score))

instance : IsTotal Candidate scoreGe :=
  ⟨fun a b => le_total b.score a.score⟩

instance : IsTrans Candidate scoreGe :=
  ⟨fun _ _ _ h1 h2 => le_trans h2 h1⟩

/-- Modelled from the spec: default Q&A limit (spec §4.4, wire contract
`limit?(1-50,default 10)` in `QASearchRequest`). -/
def qaDefaultLimit : Nat := 10

/-- Modelled from the spec: default Q&A score threshold (spec §4.4, wire
contract `score_threshold?(0.0-1.0, default 0.7)` in `QASearchRequest`). -/
def qaDefaultThreshold : ℚ := 7 / 10

/-- Modelled from the spec: the Q&A Matcher `matchQA` (spec §4.4), whose
implementation is not in the repository.  The embedding-similarity search
is modelled by its scored candidate list; `matchQA` applies the filters,
discards scores below the threshold, orders by descending score and
returns at most `limit`. -/
def matchQA (cands : List Candidate) (f : SearchFilters) (limit : Nat)
    (scoreThreshold : ℚ) : List Candidate :=
  (List.insertionSort scoreGe
      ((applyFilters cands f).filter (fun c => decide (scoreThreshold ≤ c.score)))).take limit

/-! ## Request validation (spec §4.1, §4.4, §7), modelled from the spec -/

/-- Modelled from the spec: the input-validation error taxonomy naming the
offending field (spec §7): `InvalidQuery`, `InvalidThreshold`,
`InvalidLimit`. -/
inductive ValidationError where
  | invalidQuery (field : String)
  | invalidThreshold (field : String)
  | invalidLimit (field : String)
deriving DecidableEq, Repr

/-- Modelled from the spec: a query text is rejected when it is empty
after trimming, i.e. when every character is whitespace (spec §4.1). -/
def isBlank (s : String) : Bool :=
  s.toList.all (fun c => c.isWhitespace)

/-- Modelled from the spec: the Q&A search request value object
(spec §4.4; `QASearchRequest` in `src/types/legal-search/index.ts`). -/
structure QARequest where
  question : String
  limit : Nat
  score_threshold : ℚ
deriving Repr

/-- Modelled from the spec: the text-search request value object
(spec §3 `SearchQuery`; `SearchRequest` in
`src/types/legal-search/index.ts`). -/
structure SearchQuery where
  query_text : String
  limit : Nat
deriving Repr

/-- Modelled from the spec: the search limit is clamped to [1,100]
(spec §4.1). -/
def clampLimit (n : Nat) : Nat :=
  min (max n 1) 100

/-- Modelled from the spec: Q&A request validation (spec §4.4, §7): blank
question rejected as `InvalidQuery`, threshold outside [0,1] as
`InvalidThreshold`, limit outside [1,50] as `InvalidLimit`, each naming
the offending field.  Checks run in that order. -/
def validateQA (req : QARequest) : Except ValidationError Unit :=
  if isBlank req.question then .error (.invalidQuery "question")
  else if req.score_threshold < 0 ∨ 1 < req.score_threshold then
    .error (.invalidThreshold "score_threshold")
  else if req.limit < 1 ∨ 50 < req.limit then .error (.invalidLimit "limit")
  else .ok ()

/-- Modelled from the spec: text-search request validation (spec §4.1):
blank query text rejected as `InvalidQuery`, limit clamped to [1,100]. -/
def validateSearch (req : SearchQuery) : Except ValidationError SearchQuery :=
  if isBlank req.query_text then .error (.invalidQuery "query_text")
  else .ok { req with limit := clampLimit req.limit }

/-- Modelled from the spec: the Q&A pipeline rejects an invalid request
before the backend is consulted; the backend similarity search (absent
from the repository) is a parameter. -/
def runQA (backend : QARequest → List Candidate) (req : QARequest) :
    Except ValidationError (List Candidate) :=
  match validateQA req with
  | .error e => .error e
  | .ok _ => .ok (backend req)

/-- Modelled from the spec: the text-search pipeline rejects an invalid
request before the backend is consulted; the backend retrieval (absent
from the repository) is a parameter. -/
def runSearch (backend : SearchQuery → List Candidate) (req : SearchQuery) :
    Except ValidationError (List Candidate) :=
  match validateSearch req with
  | .error e => .error e
  | .ok r => .ok (backend r)

/-! ## The `match_documents` SQL function
(`src/unnamed/part_005`, lines 261-311) -/

/-- A joined row of `user_documents_vec` and `user_documents` as seen by
`match_documents` for a fixed query embedding: its owner, its
`filter_tags` value and its cosine similarity
`1 - (embedding <=> query_embedding)`. -/
structure DocRow where
  user_id : Nat
  filter_tags : String
  similarity : ℚ
deriving DecidableEq, Repr

/-- Descending-similarity order: `ORDER BY vec.embedding <=> query ASC`
is ascending distance, i.e. descending similarity. -/
def simGe (a b : DocRow) : Prop :=
  b.similarity ≤ a.similarity

instance : DecidableRel simGe :=
  fun a b => inferInstanceAs (Decidable (b.similarity ≤ a.similarity))

instance : IsTotal DocRow simGe :=
  ⟨fun a b => le_total b.similarity a.similarity⟩

instance : IsTrans DocRow simGe :=
  ⟨fun _ _ _ h1 h2 => le_trans h2 h1⟩

/-- The default `similarity_threshold` of `match_documents`
(`DEFAULT 0.30`). -/
def matchDocumentsDefaultThreshold : ℚ := 3 / 10

/-- The `match_documents` SQL function of `src/unnamed/part_005`
(lines 261-311): keeps the rows owned by `filter_user_id` whose
`filter_tags` is among `filter_files` and whose similarity exceeds the
threshold, orders by ascending embedding distance (descending
similarity), and truncates with `LIMIT LEAST(match_count, 200)`. -/
def match_documents (rows : List DocRow) (match_count : Nat) (filter_user_id : Nat)
    (filter_files : List String) (similarity_threshold : ℚ) : List DocRow :=
  (List.insertionSort simGe
      (rows.filter (fun r =>
        r.user_id == filter_user_id && filter_files.contains r.filter_tags &&
          decide (similarity_threshold < r.similarity)))).take (min match_count 200)

/-- The rows used to exercise the `LIMIT LEAST(match_count, 200)` clause:
150 rows owned by user 0, tagged "f", with distinct similarities well
above the default threshold. -/
def limitProbeRows : List DocRow :=
  (List.range 150).map (fun (i : Nat) =>
    { user_id := 0, filter_tags := "f", similarity := (1000 - (i : ℚ)) / 1000 })

/-! ## Synthesis Aggregator (spec §4.5), modelled from the spec -/

/-- Modelled from the spec: a grounding chunk consumed by the Synthesis
Aggregator, with the fields its aggregates read (spec §4.5). -/
structure ChunkPayload where
  chunk_id : Nat
  decision_id : String
  legal_category : String
deriving DecidableEq, Repr

/-- The `SynthesisResponse` wire record of
`src/types/legal-search/index.ts` (lines 64-72), with the aggregate
payloads rendered concretely. -/
structure SynthesisResponse where
  query : String
  total_results : Nat
  search_method : String
  context_chunks : List ChunkPayload
  sources : List String
  metadata_summary : List (String × Nat)
  error : Option String
deriving DecidableEq, Repr

/-- Modelled from the spec: counts by `legal_category` over the result set
(spec §4.5 `metadata_summary`). -/
def categoryCounts (rs : List ChunkPayload) : List (String × Nat) :=
  ((rs.map (fun r => r.legal_category)).dedup).map
    (fun c => (c, (rs.filter (fun r => r.legal_category == c)).length))

/-- Modelled from the spec: the Synthesis Aggregator `synthesize`
(spec §4.5), whose implementation is not in the repository.  The
underlying search outcome is a parameter; on failure the response carries
the error with every aggregate left at its default, instead of raising. -/
def synthesize (q : String) (method : String)
    (outcome : Except String (List ChunkPayload)) : SynthesisResponse :=
  match outcome with
  | .error e =>
    { query := q, total_results := 0, search_method := method, context_chunks := [],
      sources := [], metadata_summary := [], error := some e }
  | .ok rs =>
    { query := q, total_results := rs.length, search_method := method, context_chunks := rs,
      sources := (rs.map (fun r => r.decision_id)).dedup,
      metadata_summary := categoryCounts rs, error := none }

/-! ## Route handlers (`src/app/api/legal-search/qa/route.ts` and the
discovery route of `src/unnamed/part_000`) -/

/-- The observable backend interaction of a route handler: recorded
exactly when the handler performs its `fetch` to the search backend. -/
inductive Effect where
  | backendFetch
deriving DecidableEq, Repr

/-- An HTTP response from the FastAPI backend as the route handlers see
it: the `ok` flag, the status code and the JSON body. -/
structure BackendHttp (β : Type) where
  ok : Bool
  status : Nat
  body : β
deriving Repr

/-- The body of a route handler's own response. -/
inductive RouteBody (β : Type) where
  | unauthorized
  | internalError
  | payload (b : β)
deriving Repr

/-- A route handler's response: status code and body. -/
structure RouteResp (β : Type) where
  status : Nat
  body : RouteBody β
deriving Repr

/-- The `POST` handler of `src/app/api/legal-search/qa/route.ts`
(lines 9-39): checks `supabase.auth.getUser()`; with no user it responds
401 Unauthorized without touching the backend; otherwise it parses the
request body (a parse failure is caught as 500), forwards it to the
backend (recording the fetch; a thrown fetch is caught as 500) and
relays the backend's response, with the backend's status when not ok. -/
def qaRoutePOST {α β : Type} (user : Option Nat) (reqBody : Except Unit α)
    (backend : α → Except Unit (BackendHttp β)) : RouteResp β × List Effect :=
  match user with
  | none => (⟨401, .unauthorized⟩, [])
  | some _ =>
    match reqBody with
    | .error _ => (⟨500, .internalError⟩, [])
    | .ok b =>
      match backend b with
      | .error _ => (⟨500, .internalError⟩, [Effect.backendFetch])
      | .ok r =>
        if r.ok then (⟨200, .payload r.body⟩, [Effect.backendFetch])
        else (⟨r.status, .payload r.body⟩, [Effect.backendFetch])

/-- The `GET` handler of the discovery route (`src/unnamed/part_000`,
lines 9-33): the same authenticated-principal gate, with no request body
to parse. -/
def discoveryRouteGET {β : Type} (user : Option Nat)
    (backend : Except Unit (BackendHttp β)) : RouteResp β × List Effect :=
  match user with
  | none => (⟨401, .unauthorized⟩, [])
  | some _ =>
    match backend with
    | .error _ => (⟨500, .internalError⟩, [Effect.backendFetch])
    | .ok r =>
      if r.ok then (⟨200, .payload r.body⟩, [Effect.backendFetch])
      else (⟨r.status, .payload r.body⟩, [Effect.backendFetch])

/-! ## Client API wrappers (`src/unnamed/part_001`) -/

/-- The error fields the wrappers read from a non-ok response body
(`error.error`, `error.detail`). -/
structure ErrFields where
  error : Option String
  detail : Option String
deriving DecidableEq, Repr

/-- JavaScript truthiness of an optional string operand of `||`: an
absent field and the empty string are both falsy. -/
def truthy : Option String → Option String
  | none => none
  | some s => if s = "" then none else some s

/-- The parsed error body: `response.json().catch(() => ({}))` yields the
empty object when parsing fails. -/
def errPayload : Except Unit ErrFields → ErrFields
  | .ok v => v
  | .error _ => ⟨none, none⟩

/-- The wrappers' thrown message,
`error.error || error.detail || fallback`. -/
def errorMessage (e : ErrFields) (fallback : String) : String :=
  match truthy e.error with
  | some s => s
  | none =>
    match truthy e.detail with
    | some d => d
    | none => fallback

/-- An HTTP response as the client wrappers see it: the `ok` flag, the
status, the body parsed for error fields, and the body at the success
type. -/
structure WireResp (β : Type) where
  ok : Bool
  status : Nat
  errJson : Except Unit ErrFields
  okJson : β
deriving Repr

/-- `searchDecisions` of `src/unnamed/part_001` (lines 13-28), as a
function of the HTTP response it receives: on ok it returns the parsed
body; otherwise it throws
`Error(error.error || error.detail || "Search failed (status)")`. -/
def searchDecisions {β : Type} (r : WireResp β) : Except String β :=
  if r.ok then .ok r.okJson
  else .error (errorMessage (errPayload r.errJson)
    ("Search failed (" ++ toString r.status ++ ")"))

/-- `searchQA` of `src/unnamed/part_001` (lines 34-49): identical shape
with fallback message `"QA search failed (status)"`. -/
def searchQA {β : Type} (r : WireResp β) : Except String β :=
  if r.ok then .ok r.okJson
  else .error (errorMessage (errPayload r.errJson)
    ("QA search failed (" ++ toString r.status ++ ")"))

/-- `getDiscoveryData` of `src/unnamed/part_001` (lines 55-64): identical
shape with fallback message `"Discovery failed (status)"`. -/
def getDiscoveryData {β : Type} (r : WireResp β) : Except String β :=
  if r.ok then .ok r.okJson
  else .error (errorMessage (errPayload r.errJson)
    ("Discovery failed (" ++ toString r.status ++ ")"))

/-- A non-ok response whose body carries an empty-string `error` field and
a non-empty `detail` field: the input separating "present" from "truthy"
in the wrappers' message choice. -/
def emptyErrorFieldResp : WireResp Unit :=
  { ok := false, status := 500, errJson := .ok ⟨some "", some "boom"⟩, okJson := () }

/-- A non-ok response whose body could not be parsed at all: the wrappers
fall back to the fixed message naming the HTTP status. -/
def fallbackProbeResp : WireResp Unit :=
  { ok := false, status := 404, errJson := .error (), okJson := () }

/-! ## Theorems -/


theorem rankW_injective {a b : Option Nat} (h : rankW a = rankW b) : a = b := by
  cases a <;> cases b <;> simp [rankW] at h ⊢
  · exact_mod_cast h

theorem fuseKey_injective {a b : FusedResult} (h : fuseKey a = fuseKey b) : a = b := by
  unfold fuseKey at h
  have h1 := congrArg ofLex h
  simp only [ofLex_toLex, Prod.mk.injEq] at h1
  obtain ⟨hs, h2⟩ := h1
  have h3 := congrArg ofLex h2
  simp only [ofLex_toLex, Prod.mk.injEq] at h3
  obtain ⟨hd, h4⟩ := h3
  have h5 := congrArg ofLex h4
  simp only [ofLex_toLex, Prod.mk.injEq] at h5
  obtain ⟨hsp, hid⟩ := h5
  cases a; cases b
  simp only [FusedResult.mk.injEq]
  exact ⟨hid, neg_inj.mp hs, rankW_injective hd, rankW_injective hsp⟩

instance : IsAntisymm FusedResult fuseLe :=
  ⟨fun _ _ h1 h2 => fuseKey_injective (le_antisymm h1 h2)⟩

theorem fuseAfter_of_fuseLe {a b : FusedResult} (h : fuseLe a b) (hne : a.id ≠ b.id) :
    fuseAfter a b := by
  unfold fuseLe fuseKey at h
  rw [Prod.Lex.le_iff] at h
  simp only at h
  rcases h with h | ⟨hs, h⟩
  · exact Or.inl (by simpa [neg_lt_neg_iff] using h)
  · refine Or.inr ⟨neg_inj.mp hs, ?_⟩
    rw [Prod.Lex.le_iff] at h
    simp only at h
    rcases h with h | ⟨hd, h⟩
    · exact Or.inl h
    · refine Or.inr ⟨rankW_injective hd, ?_⟩
      rw [Prod.Lex.le_iff] at h
      simp only at h
      rcases h with h | ⟨hsp, h⟩
      · exact Or.inl h
      · exact Or.inr ⟨rankW_injective hsp, lt_of_le_of_ne h hne⟩

theorem pairwise_and_aux {α : Type} {R S : α → α → Prop} :
    ∀ {l : List α}, l.Pairwise R → l.Pairwise S → l.Pairwise (fun a b => R a b ∧ S a b)
  | [], _, _ => List.Pairwise.nil
  | _ :: _, .cons hR tR, .cons hS tS =>
    .cons (fun y hy => ⟨hR y hy, hS y hy⟩) (pairwise_and_aux tR tS)

theorem fuse_ids_map (dense sparse : List Nat) (k : ℚ) :
    (((dense ++ sparse).dedup.map (mkFused dense sparse k)).map FusedResult.id) =
      (dense ++ sparse).dedup := by
  rw [List.map_map]
  have h : (FusedResult.id ∘ mkFused dense sparse k) = id := funext fun i => rfl
  rw [h, List.map_id]

theorem fuse_ids_nodup (dense sparse : List Nat) (k : ℚ) :
    ((fuse dense sparse k).map FusedResult.id).Nodup := by
  have hperm : (fuse dense sparse k).Perm ((dense ++ sparse).dedup.map (mkFused dense sparse k)) :=
    List.perm_insertionSort _ _
  have h2 := hperm.map FusedResult.id
  rw [fuse_ids_map] at h2
  exact h2.nodup_iff.mpr (List.nodup_dedup _)

/-- C1: for every pair of dense and sparse candidate lists the output of
`fuse` is sorted by non-increasing `rrf_score`, ties on equal `rrf_score`
broken by dense rank ascending, then sparse rank ascending, then chunk id
ascending; and `fuse` is deterministic: identical inputs yield identical
output ordering and scores. -/
theorem fuse_sorted_and_deterministic (dense sparse : List Nat) (k : ℚ)
    (dense' sparse' : List Nat) (k' : ℚ)
    (hd : dense = dense') (hs : sparse = sparse') (hk : k = k') :
    (fuse dense sparse k).Pairwise fuseAfter ∧
      fuse dense sparse k = fuse dense' sparse' k' := by
  constructor
  · have hsorted : (fuse dense sparse k).Pairwise fuseLe :=
      List.sorted_insertionSort fuseLe _
    have hne : (fuse dense sparse k).Pairwise (fun a b => a.id ≠ b.id) :=
      List.pairwise_map.mp (fuse_ids_nodup dense sparse k)
    exact (pairwise_and_aux hsorted hne).imp (fun h => fuseAfter_of_fuseLe h.1 h.2)
  · subst hd; subst hs; subst hk; rfl

/-- Witness for C1 at concrete inputs. -/
theorem fuse_sorted_and_deterministic_witness :
    (fuse [1, 2] [2] 60).Pairwise fuseAfter ∧ fuse [1, 2] [2] 60 = fuse [1, 2] [2] 60 :=
  fuse_sorted_and_deterministic [1, 2] [2] 60 [1, 2] [2] 60 rfl rfl rfl


theorem fuseLe_of_score_lt {a b : FusedResult} (h : b.rrf_score < a.rrf_score) : fuseLe a b := by
  unfold fuseLe fuseKey
  rw [Prod.Lex.le_iff]
  exact Or.inl (by simpa [neg_lt_neg_iff] using h)

theorem fuseLe_of_score_eq_dense_lt {a b : FusedResult} (h : a.rrf_score = b.rrf_score)
    (hd : rankW a.dense_rank < rankW b.dense_rank) : fuseLe a b := by
  unfold fuseLe fuseKey
  rw [Prod.Lex.le_iff]
  refine Or.inr ⟨by rw [h], ?_⟩
  rw [Prod.Lex.le_iff]
  exact Or.inl hd

theorem rank_dense_1 : rankOf [1, 2, 3] 1 = some 1 := by decide
theorem rank_dense_2 : rankOf [1, 2, 3] 2 = some 2 := by decide
theorem rank_dense_3 : rankOf [1, 2, 3] 3 = some 3 := by decide
theorem rank_sparse_1 : rankOf [2, 1] 1 = some 2 := by decide
theorem rank_sparse_2 : rankOf [2, 1] 2 = some 1 := by decide
theorem rank_sparse_3 : rankOf [2, 1] 3 = none := by decide

theorem scoreA : (mkFused [1, 2, 3] [2, 1] 60 1).rrf_score = 1 / 61 + 1 / 62 := by
  show rrfScore 60 (rankOf [1, 2, 3] 1) (rankOf [2, 1] 1) = 1 / 61 + 1 / 62
  rw [rank_dense_1, rank_sparse_1]
  norm_num [rrfScore, rrfTerm]

theorem scoreB : (mkFused [1, 2, 3] [2, 1] 60 2).rrf_score = 1 / 61 + 1 / 62 := by
  show rrfScore 60 (rankOf [1, 2, 3] 2) (rankOf [2, 1] 2) = 1 / 61 + 1 / 62
  rw [rank_dense_2, rank_sparse_2]
  norm_num [rrfScore, rrfTerm]

theorem scoreC : (mkFused [1, 2, 3] [2, 1] 60 3).rrf_score = 1 / 63 := by
  show rrfScore 60 (rankOf [1, 2, 3] 3) (rankOf [2, 1] 3) = 1 / 63
  rw [rank_dense_3, rank_sparse_3]
  norm_num [rrfScore, rrfTerm]

theorem fuse_scenario_eq :
    fuse [1, 2, 3] [2, 1] 60 =
      [mkFused [1, 2, 3] [2, 1] 60 1, mkFused [1, 2, 3] [2, 1] 60 2,
        mkFused [1, 2, 3] [2, 1] 60 3] := by
  have hAB : fuseLe (mkFused [1, 2, 3] [2, 1] 60 1) (mkFused [1, 2, 3] [2, 1] 60 2) := by
    apply fuseLe_of_score_eq_dense_lt
    · rw [scoreA, scoreB]
    · show rankW (rankOf [1, 2, 3] 1) < rankW (rankOf [1, 2, 3] 2)
      rw [rank_dense_1, rank_dense_2]
      simp [rankW]
  have hAC : fuseLe (mkFused [1, 2, 3] [2, 1] 60 1) (mkFused [1, 2, 3] [2, 1] 60 3) := by
    apply fuseLe_of_score_lt
    rw [scoreA, scoreC]
    norm_num
  have hBC : fuseLe (mkFused [1, 2, 3] [2, 1] 60 2) (mkFused [1, 2, 3] [2, 1] 60 3) := by
    apply fuseLe_of_score_lt
    rw [scoreB, scoreC]
    norm_num
  apply List.eq_of_perm_of_sorted (r := fuseLe)
  · have h1 : (([1, 2, 3] ++ [2, 1] : List Nat)).dedup = [3, 2, 1] := by decide
    have h2 : fuse [1, 2, 3] [2, 1] 60 =
        List.insertionSort fuseLe
          [mkFused [1, 2, 3] [2, 1] 60 3, mkFused [1, 2, 3] [2, 1] 60 2,
            mkFused [1, 2, 3] [2, 1] 60 1] := by
      unfold fuse
      rw [h1]
      rfl
    rw [h2]
    refine (List.perm_insertionSort _ _).trans ?_
    have h3 : [mkFused [1, 2, 3] [2, 1] 60 3, mkFused [1, 2, 3] [2, 1] 60 2,
        mkFused [1, 2, 3] [2, 1] 60 1] =
        ([mkFused [1, 2, 3] [2, 1] 60 1, mkFused [1, 2, 3] [2, 1] 60 2,
          mkFused [1, 2, 3] [2, 1] 60 3]).reverse := rfl
    rw [h3]
    exact List.reverse_perm _
  · exact List.sorted_insertionSort fuseLe _
  · rw [List.sorted_cons, List.sorted_cons]
    refine ⟨?_, ?_, List.sorted_singleton _⟩
    · intro b hb
      rcases List.mem_cons.mp hb with h | h
      · rw [h]; exact hAB
      · rw [List.mem_singleton.mp h]; exact hAC
    · intro b hb
      rw [List.mem_singleton.mp hb]
      exact hBC

/-- C2 counterexample: in the spec scenario (dense `[A,B,C]` as ids
`[1,2,3]`, sparse `[B,A]` as `[2,1]`, k = 60) chunks A and B receive the
same `rrf_score` `1/61 + 1/62`, A's score is not `1/61 + 1/63`, and the
fused order is `[A, B, C]`, not the claimed `[B, A, C]`. -/
theorem fuse_scenario_order_counterexample :
    (fuse [1, 2, 3] [2, 1] 60).map FusedResult.id = [1, 2, 3] ∧
      (fuse [1, 2, 3] [2, 1] 60).map FusedResult.id ≠ [2, 1, 3] ∧
      rrfScore 60 (some 1) (some 2) = rrfScore 60 (some 2) (some 1) ∧
      rrfScore 60 (some 1) (some 2) ≠ 1 / 61 + 1 / 63 := by
  have hmap : (fuse [1, 2, 3] [2, 1] 60).map FusedResult.id = [1, 2, 3] := by
    rw [fuse_scenario_eq]; rfl
  refine ⟨hmap, ?_, ?_, ?_⟩
  · rw [hmap]; decide
  · norm_num [rrfScore, rrfTerm]
  · norm_num [rrfScore, rrfTerm]

/-- C2 (amended): for each chunk id in either input list, `fuse` assigns
`rrf_score = 1/(k + dense_rank) + 1/(k + sparse_rank)` with an absent
rank term contributing 0; in the spec scenario (k = 60) A and B tie at
`1/61 + 1/62` and the dense-rank tie-break orders the output A, B, then
C with score `1/63`. -/
theorem fuse_rrf_formula_and_scenario :
    (∀ (dense sparse : List Nat) (k : ℚ) (i : Nat), i ∈ dense ∨ i ∈ sparse →
      ∃ r, r ∈ fuse dense sparse k ∧ r.id = i ∧
        r.rrf_score = rrfTerm k (rankOf dense i) + rrfTerm k (rankOf sparse i)) ∧
      (fuse [1, 2, 3] [2, 1] 60).map (fun r => (r.id, r.rrf_score)) =
        [(1, 1 / 61 + 1 / 62), (2, 1 / 61 + 1 / 62), (3, 1 / 63)] := by
  constructor
  · intro dense sparse k i hi
    refine ⟨mkFused dense sparse k i, ?_, rfl, rfl⟩
    rw [fuse, List.mem_insertionSort]
    exact List.mem_map_of_mem _ (List.mem_dedup.mpr (List.mem_append.mpr hi))
  · rw [fuse_scenario_eq]
    simp only [List.map]
    rw [scoreA, scoreB, scoreC]
    rfl

/-- Witness for the amended C2 formula at a concrete input. -/
theorem fuse_rrf_formula_witness :
    ∃ r, r ∈ fuse [7] [] 60 ∧ r.id = 7 ∧
      r.rrf_score = rrfTerm 60 (rankOf [7] 7) + rrfTerm 60 (rankOf [] 7) :=
  fuse_rrf_formula_and_scenario.1 [7] [] 60 7 (Or.inl (by decide))

/-- C3: for every k > 0, a chunk ranked 1st in both the dense and the
sparse list receives a strictly higher `rrf_score` than a chunk ranked
1st in only one of the two lists (absent from, or at rank r ≥ 2 in, the
other list). -/
theorem rrf_first_in_both_beats_first_in_one (k : ℚ) (hk : 0 < k) (d s : Option Nat)
    (h : (d = some 1 ∧ s = none) ∨ (d = none ∧ s = some 1) ∨
      (∃ r, 2 ≤ r ∧ ((d = some 1 ∧ s = some r) ∨ (d = some r ∧ s = some 1)))) :
    rrfScore k d s < rrfScore k (some 1) (some 1) := by
  have hpos : (0 : ℚ) < k + 1 := by linarith
  have hterm : (0 : ℚ) < 1 / (k + 1) := by positivity
  have hworse : ∀ r : Nat, 2 ≤ r → 1 / (k + (r : ℚ)) < 1 / (k + 1) := by
    intro r hr
    have hr2 : (2 : ℚ) ≤ (r : ℚ) := by exact_mod_cast hr
    exact one_div_lt_one_div_of_lt hpos (by linarith)
  rcases h with ⟨hd, hs⟩ | ⟨hd, hs⟩ | ⟨r, hr, ⟨hd, hs⟩ | ⟨hd, hs⟩⟩ <;> subst hd <;> subst hs
  · simp only [rrfScore, rrfTerm]
    linarith
  · simp only [rrfScore, rrfTerm]
    linarith
  · simp only [rrfScore, rrfTerm]
    have := hworse r hr
    linarith
  · simp only [rrfScore, rrfTerm]
    have := hworse r hr
    linarith

/-- Witness for C3 at k = 60. -/
theorem rrf_first_in_both_witness :
    rrfScore 60 (some 1) none < rrfScore 60 (some 1) (some 1) :=
  rrf_first_in_both_beats_first_in_one 60 (by norm_num) (some 1) none (Or.inl ⟨rfl, rfl⟩)


theorem fieldMatches_iff (o : Option String) (w : String) :
    fieldMatches o w = true ↔ ∀ x, o = some x → w = x := by
  cases o with
  | none =>
    constructor
    · intro _ x hx
      cases hx
    · intro _
      rfl
  | some x =>
    rw [show fieldMatches (some x) w = (x == w) from rfl, beq_iff_eq]
    constructor
    · intro h y hy
      injection hy with hxy
      rw [← hxy, h]
    · intro h
      exact (h x rfl).symm

/-- C4: a candidate is retained by `applyFilters` iff every present filter
field equals the candidate's corresponding field under case-sensitive
string equality; the empty filter set returns the list unchanged;
`applyFilters` preserves the relative order of retained candidates (its
output is a sublist of its input); and it is idempotent. -/
theorem applyFilters_spec (xs : List Candidate) (f : SearchFilters) :
    (∀ c, c ∈ applyFilters xs f ↔
      c ∈ xs ∧
        (∀ v, f.court_name = some v → c.court_name = v) ∧
        (∀ v, f.city = some v → c.city = v) ∧
        (∀ v, f.court_type = some v → c.court_type = v) ∧
        (∀ v, f.content_type = some v → c.content_type = v) ∧
        (∀ v, f.legal_category = some v → c.legal_category = v) ∧
        (∀ v, f.decision_id = some v → c.decision_id = v)) ∧
      applyFilters xs SearchFilters.noFilters = xs ∧
      (applyFilters xs f).Sublist xs ∧
      applyFilters (applyFilters xs f) f = applyFilters xs f := by
  refine ⟨?_, ?_, ?_, ?_⟩
  · intro c
    rw [applyFilters, List.mem_filter, matchesFilters]
    simp only [Bool.and_eq_true]
    rw [fieldMatches_iff, fieldMatches_iff, fieldMatches_iff, fieldMatches_iff,
      fieldMatches_iff, fieldMatches_iff]
    tauto
  · exact List.filter_eq_self.mpr (fun a _ => rfl)
  · exact List.filter_sublist _
  · exact List.filter_eq_self.mpr (fun a ha => List.of_mem_filter ha)

/-- Witness for C4: the empty filter set is a no-op on a concrete list. -/
theorem applyFilters_spec_witness :
    applyFilters [] SearchFilters.noFilters = [] :=
  (applyFilters_spec [] SearchFilters.noFilters).2.1

/-- C5: every result of `matchQA` scores at least the threshold, results
are ordered by non-increasing score, at most `limit` results are
returned, and the defaults are threshold 0.7 and limit 10. -/
theorem matchQA_spec (cands : List Candidate) (f : SearchFilters) (limit : Nat)
    (scoreThreshold : ℚ) (_h1 : 1 ≤ limit) (_h2 : limit ≤ 50)
    (_h3 : 0 ≤ scoreThreshold) (_h4 : scoreThreshold ≤ 1) :
    (∀ r ∈ matchQA cands f limit scoreThreshold, scoreThreshold ≤ r.score) ∧
      (matchQA cands f limit scoreThreshold).Pairwise (fun a b => b.score ≤ a.score) ∧
      (matchQA cands f limit scoreThreshold).length ≤ limit ∧
      qaDefaultThreshold = 7 / 10 ∧ qaDefaultLimit = 10 := by
  refine ⟨?_, ?_, ?_, rfl, rfl⟩
  · intro r hr
    have hr2 : r ∈ List.insertionSort scoreGe
        ((applyFilters cands f).filter (fun c => decide (scoreThreshold ≤ c.score))) :=
      List.mem_of_mem_take hr
    rw [List.mem_insertionSort] at hr2
    have := List.of_mem_filter hr2
    exact of_decide_eq_true this
  · have hs : (List.insertionSort scoreGe
        ((applyFilters cands f).filter (fun c => decide (scoreThreshold ≤ c.score)))).Pairwise
          scoreGe :=
      List.sorted_insertionSort scoreGe _
    exact ((hs.sublist (List.take_sublist _ _)).imp (fun h => h))
  · exact List.length_take_le _ _

/-- Witness for C5 at a concrete request. -/
theorem matchQA_spec_witness :
    (∀ r ∈ matchQA [] SearchFilters.noFilters 10 (7 / 10), (7 / 10 : ℚ) ≤ r.score) ∧
      (matchQA [] SearchFilters.noFilters 10 (7 / 10)).Pairwise (fun a b => b.score ≤ a.score) ∧
      (matchQA [] SearchFilters.noFilters 10 (7 / 10)).length ≤ 10 ∧
      qaDefaultThreshold = 7 / 10 ∧ qaDefaultLimit = 10 :=
  matchQA_spec [] SearchFilters.noFilters 10 (7 / 10) (by norm_num) (by norm_num)
    (by norm_num) (by norm_num)

/-- C6: a blank query is rejected with `InvalidQuery` naming the field,
independently of the backend (so before any backend call); a Q&A
threshold outside [0,1] is rejected with `InvalidThreshold`; a Q&A limit
outside [1,50] is rejected with `InvalidLimit`; checks run in that
order. -/
theorem validation_spec (bq : QARequest → List Candidate)
    (bs : SearchQuery → List Candidate) (req : QARequest) (sreq : SearchQuery) :
    (isBlank req.question = true →
      runQA bq req = .error (.invalidQuery "question") ∧
        ∀ bq' : QARequest → List Candidate, runQA bq req = runQA bq' req) ∧
      (isBlank sreq.query_text = true →
        runSearch bs sreq = .error (.invalidQuery "query_text") ∧
          ∀ bs' : SearchQuery → List Candidate, runSearch bs sreq = runSearch bs' sreq) ∧
      (isBlank req.question = false →
        (req.score_threshold < 0 ∨ 1 < req.score_threshold) →
          runQA bq req = .error (.invalidThreshold "score_threshold")) ∧
      (isBlank req.question = false → 0 ≤ req.score_threshold → req.score_threshold ≤ 1 →
        (req.limit < 1 ∨ 50 < req.limit) →
          runQA bq req = .error (.invalidLimit "limit")) := by
  refine ⟨?_, ?_, ?_, ?_⟩
  · intro hb
    have h : validateQA req = .error (.invalidQuery "question") := by
      rw [validateQA, if_pos hb]
    constructor
    · rw [runQA, h]
    · intro bq'
      rw [runQA, runQA, h]
  · intro hb
    have h : validateSearch sreq = .error (.invalidQuery "query_text") := by
      rw [validateSearch, if_pos hb]
    constructor
    · rw [runSearch, h]
    · intro bs'
      rw [runSearch, runSearch, h]
  · intro hb ht
    have h : validateQA req = .error (.invalidThreshold "score_threshold") := by
      rw [validateQA, if_neg (by rw [hb]; exact Bool.false_ne_true), if_pos ht]
    rw [runQA, h]
  · intro hb ht1 ht2 hl
    have hnt : ¬(req.score_threshold < 0 ∨ 1 < req.score_threshold) := by
      push_neg
      exact ⟨ht1, ht2⟩
    have h : validateQA req = .error (.invalidLimit "limit") := by
      rw [validateQA, if_neg (by rw [hb]; exact Bool.false_ne_true), if_neg hnt, if_pos hl]
    rw [runQA, h]

/-- Witness for C6: a whitespace-only question is rejected as
`InvalidQuery` naming the `question` field. -/
theorem validation_spec_witness :
    runQA (fun _ => []) { question := " ", limit := 10, score_threshold := 7 / 10 } =
      .error (.invalidQuery "question") :=
  ((validation_spec (fun _ => []) (fun _ => [])
      { question := " ", limit := 10, score_threshold := 7 / 10 }
      { query_text := "x", limit := 10 }).1 (by decide)).1


theorem match_documents_length (rows : List DocRow) (n u : Nat) (fs : List String) (θ : ℚ) :
    (match_documents rows n u fs θ).length =
      min (min n 200)
        ((rows.filter (fun r => r.user_id == u && fs.contains r.filter_tags &&
          decide (θ < r.similarity))).length) := by
  unfold match_documents
  rw [List.length_take, List.length_insertionSort]

/-- C7 counterexample: with 150 candidate rows all passing the filters
and `match_count = 150`, `match_documents` returns 150 rows: the
effective limit is `LEAST(match_count, 200)`, not a value clamped to
[1,100], so the output is not bounded by 100. -/
theorem match_documents_limit_not_clamped_to_100 :
    ¬((match_documents limitProbeRows 150 0 ["f"] (3 / 10)).length ≤ 100) := by
  have hfil : limitProbeRows.filter (fun r => r.user_id == 0 &&
      (["f"] : List String).contains r.filter_tags &&
      decide ((3 / 10 : ℚ) < r.similarity)) = limitProbeRows := by
    apply List.filter_eq_self.mpr
    intro r hr
    rw [limitProbeRows] at hr
    obtain ⟨i, hi, rfl⟩ := List.mem_map.mp hr
    have hi' : i < 150 := List.mem_range.mp hi
    have hsim : (3 / 10 : ℚ) < (1000 - (i : ℚ)) / 1000 := by
      have hc : (i : ℚ) < 150 := by exact_mod_cast hi'
      rw [lt_div_iff₀ (by norm_num : (0 : ℚ) < 1000)]
      linarith
    simp only [Bool.and_eq_true, decide_eq_true_eq]
    exact ⟨⟨by decide, by decide⟩, hsim⟩
  have hlen : limitProbeRows.length = 150 := by
    rw [limitProbeRows, List.length_map, List.length_range]
  rw [match_documents_length, hfil, hlen]
  omega

/-- C7 (amended): the output of `match_documents` never exceeds the
requested `match_count`, and is additionally capped at 200 by
`LIMIT LEAST(match_count, 200)`; there is no clamp to [1,100]. -/
theorem match_documents_respects_limit (rows : List DocRow) (match_count filter_user_id : Nat)
    (filter_files : List String) (similarity_threshold : ℚ) :
    (match_documents rows match_count filter_user_id filter_files
        similarity_threshold).length ≤ match_count ∧
      (match_documents rows match_count filter_user_id filter_files
        similarity_threshold).length ≤ 200 := by
  constructor <;> (rw [match_documents_length]; omega)

/-- C8: when the underlying search failed, `synthesize` returns a
`SynthesisResponse` with the `error` field populated and every other
aggregate at its default (zero results, empty chunks, sources and
summary), instead of propagating an exception: `synthesize` is a total
function into `SynthesisResponse`. -/
theorem synthesize_partial_failure (q method e : String) :
    synthesize q method (.error e) =
      { query := q, total_results := 0, search_method := method, context_chunks := [],
        sources := [], metadata_summary := [], error := some e } ∧
      (synthesize q method (.error e)).error = some e :=
  ⟨rfl, rfl⟩

/-- C9: with no authenticated user, both legal-search route handlers
respond 401 Unauthorized and perform no backend fetch; and a backend
fetch is recorded only when the authenticated-principal check found a
user. -/
theorem routes_auth_gate {α β : Type} (u : Option Nat) (reqBody : Except Unit α)
    (bk : α → Except Unit (BackendHttp β)) (bk' : Except Unit (BackendHttp β)) :
    ((qaRoutePOST none reqBody bk).1.status = 401 ∧
        (qaRoutePOST none reqBody bk).1.body = RouteBody.unauthorized ∧
        (qaRoutePOST none reqBody bk).2 = []) ∧
      ((discoveryRouteGET none bk').1.status = 401 ∧
        (discoveryRouteGET none bk').1.body = RouteBody.unauthorized ∧
        (discoveryRouteGET none bk').2 = []) ∧
      (Effect.backendFetch ∈ (qaRoutePOST u reqBody bk).2 → u ≠ none) ∧
      (Effect.backendFetch ∈ (discoveryRouteGET u bk').2 → u ≠ none) := by
  refine ⟨⟨rfl, rfl, rfl⟩, ⟨rfl, rfl, rfl⟩, ?_, ?_⟩
  · intro hmem
    cases u with
    | none => simp [qaRoutePOST] at hmem
    | some v => simp
  · intro hmem
    cases u with
    | none => simp [discoveryRouteGET] at hmem
    | some v => simp

/-- Witness for C9: with a user present and a successful backend call the
qa route does record a backend fetch, and the user is indeed present. -/
theorem routes_auth_gate_witness : (some 0 : Option Nat) ≠ none :=
  (routes_auth_gate (some 0) (Except.ok ())
      (fun _ => Except.ok (⟨true, 200, ()⟩ : BackendHttp Unit))
      (Except.ok (⟨true, 200, ()⟩ : BackendHttp Unit))).2.2.1 (by decide)

theorem truthy_eq_some {o : Option String} {s : String} (hs : o = some s) (hne : s ≠ "") :
    truthy o = some s := by
  rw [hs, truthy, if_neg hne]

theorem truthy_eq_none {o : Option String} (h : o = none ∨ o = some "") :
    truthy o = none := by
  rcases h with h | h <;> rw [h, truthy]
  rw [if_pos rfl]

theorem errorMessage_of_error {e : ErrFields} {fb s : String} (hs : e.error = some s)
    (hne : s ≠ "") : errorMessage e fb = s := by
  rw [errorMessage, truthy_eq_some hs hne]

theorem errorMessage_of_detail {e : ErrFields} {fb d : String}
    (he : e.error = none ∨ e.error = some "") (hd : e.detail = some d) (hne : d ≠ "") :
    errorMessage e fb = d := by
  rw [errorMessage, truthy_eq_none he, truthy_eq_some hd hne]

theorem errorMessage_of_fallback {e : ErrFields} {fb : String}
    (he : e.error = none ∨ e.error = some "") (hd : e.detail = none ∨ e.detail = some "") :
    errorMessage e fb = fb := by
  rw [errorMessage, truthy_eq_none he, truthy_eq_none hd]

theorem searchDecisions_not_ok {β : Type} {r : WireResp β} (h : r.ok = false) :
    searchDecisions r = .error (errorMessage (errPayload r.errJson)
      ("Search failed (" ++ toString r.status ++ ")")) := by
  rw [searchDecisions, if_neg (by rw [h]; exact Bool.false_ne_true)]

theorem searchQA_not_ok {β : Type} {r : WireResp β} (h : r.ok = false) :
    searchQA r = .error (errorMessage (errPayload r.errJson)
      ("QA search failed (" ++ toString r.status ++ ")")) := by
  rw [searchQA, if_neg (by rw [h]; exact Bool.false_ne_true)]

theorem getDiscoveryData_not_ok {β : Type} {r : WireResp β} (h : r.ok = false) :
    getDiscoveryData r = .error (errorMessage (errPayload r.errJson)
      ("Discovery failed (" ++ toString r.status ++ ")")) := by
  rw [getDiscoveryData, if_neg (by rw [h]; exact Bool.false_ne_true)]

/-- C10 counterexample: on a non-ok response whose body carries the
present-but-empty `error` field `""` and `detail` `"boom"`,
`searchDecisions` throws `"boom"`: the message is not the present
`error` field. -/
theorem client_wrappers_truthiness_counterexample :
    emptyErrorFieldResp.errJson = .ok ⟨some "", some "boom"⟩ ∧
      searchDecisions emptyErrorFieldResp = .error "boom" ∧
      searchDecisions emptyErrorFieldResp ≠ .error "" := by
  have h : searchDecisions emptyErrorFieldResp = .error "boom" := by
    rw [searchDecisions_not_ok rfl]
    rw [show errPayload emptyErrorFieldResp.errJson = ⟨some "", some "boom"⟩ from rfl]
    rw [errorMessage_of_detail (Or.inr rfl) rfl (by decide)]
  refine ⟨rfl, h, ?_⟩
  rw [h]
  intro hc
  injection hc with hc'
  exact absurd hc' (by decide)

/-- C10 (amended): on an ok response each wrapper returns the parsed body
and never throws; on a non-ok response it throws with the body's `error`
field when present and non-empty, else the body's `detail` field when
present and non-empty, else a fixed message naming the HTTP status code
(an empty-string field, though present, is skipped by the JavaScript
`||` chain). -/
theorem client_wrappers_spec {β : Type} (r : WireResp β) :
    (r.ok = true →
      searchDecisions r = .ok r.okJson ∧ searchQA r = .ok r.okJson ∧
        getDiscoveryData r = .ok r.okJson) ∧
      (r.ok = false → ∀ e, errPayload r.errJson = e →
        (∀ s, e.error = some s → s ≠ "" →
            searchDecisions r = .error s ∧ searchQA r = .error s ∧
              getDiscoveryData r = .error s) ∧
          ((e.error = none ∨ e.error = some "") → ∀ d, e.detail = some d → d ≠ "" →
            searchDecisions r = .error d ∧ searchQA r = .error d ∧
              getDiscoveryData r = .error d) ∧
          ((e.error = none ∨ e.error = some "") → (e.detail = none ∨ e.detail = some "") →
            searchDecisions r = .error ("Search failed (" ++ toString r.status ++ ")") ∧
              searchQA r = .error ("QA search failed (" ++ toString r.status ++ ")") ∧
              getDiscoveryData r =
                .error ("Discovery failed (" ++ toString r.status ++ ")"))) := by
  constructor
  · intro hok
    refine ⟨?_, ?_, ?_⟩
    · rw [searchDecisions, if_pos hok]
    · rw [searchQA, if_pos hok]
    · rw [getDiscoveryData, if_pos hok]
  · intro hok e he
    refine ⟨?_, ?_, ?_⟩
    · intro s hs hne
      rw [searchDecisions_not_ok hok, searchQA_not_ok hok, getDiscoveryData_not_ok hok, he,
        errorMessage_of_error hs hne, errorMessage_of_error hs hne,
        errorMessage_of_error hs hne]
      exact ⟨rfl, rfl, rfl⟩
    · intro herr d hd hne
      rw [searchDecisions_not_ok hok, searchQA_not_ok hok, getDiscoveryData_not_ok hok, he,
        errorMessage_of_detail herr hd hne, errorMessage_of_detail herr hd hne,
        errorMessage_of_detail herr hd hne]
      exact ⟨rfl, rfl, rfl⟩
    · intro herr hdet
      rw [searchDecisions_not_ok hok, searchQA_not_ok hok, getDiscoveryData_not_ok hok, he,
        errorMessage_of_fallback herr hdet, errorMessage_of_fallback herr hdet,
        errorMessage_of_fallback herr hdet]
      exact ⟨rfl, rfl, rfl⟩

/-- Witness for C10: a non-ok unparseable body falls back to the fixed
message naming the status code. -/
theorem client_wrappers_spec_witness :
    searchDecisions fallbackProbeResp =
      .error ("Search failed (" ++ toString (404 : Nat) ++ ")") :=
  (((client_wrappers_spec fallbackProbeResp).2 rfl ⟨none, none⟩ rfl).2.2
    (Or.inl rfl) (Or.inl rfl)).1

end LegalSearch
